import Mathlib

/-!
Verification of the CourtReserve tennis-court booking automation
(`src/automation/booking.ts`): a shallow embedding of the
`CourtBookingAutomation` class (login, bookCourt, close) and of the
module-level convenience wrapper `bookCourt`, together with theorems about
slot selection, the save-retry loop, notification behaviour, and the
session lifecycle.

Browser interactions are modelled by explicit environment records: every
piece of information the code reads from the live page (URLs, element
visibility, slot `data-href` timestamps, the signal observed after each
save click) is a field of an environment, and the TypeScript control flow
is translated branch by branch into total Lean functions over those
environments.  JavaScript `Date` values are modelled by local civil-time
records (`day`/`msOfDay`) with millisecond arithmetic over `Int`.
-/

namespace TennisBot

/-- A notification payload handed to `sendNotification`
(`src/notifications`, `NotificationPayload`). -/
structure Notification where
  title : String
  message : String
deriving DecidableEq

/-- The mutable fields of `CourtBookingAutomation`: `browser`, `context`,
`page` are modelled by presence flags (`true` = non-null handle), plus the
`isLoggedIn` flag. -/
structure AState where
  browser : Bool
  context : Bool
  page : Bool
  isLoggedIn : Bool
deriving DecidableEq

/-- The freshly-constructed session: all handles null, not logged in. -/
def AState.empty : AState := ⟨false, false, false, false⟩

/-- `initialize()`: launches the browser, opens a context and a page.
Modelled as setting the three handle flags. -/
def initBrowser (st : AState) : AState :=
  { st with browser := true, context := true, page := true }

/-- `close()`: if the browser handle is non-null, close it and null out
browser, context, page and reset `isLoggedIn`; otherwise a no-op. -/
def closeFn (st : AState) : AState :=
  if st.browser then AState.empty else st

/-- JavaScript string truthiness of an optional string:
`undefined` and `""` are falsy. -/
def jsTruthy (o : Option String) : Bool :=
  match o with
  | none => false
  | some s => !(s == "")

/-- JavaScript `targetTime || 'nearest future slot'` style defaulting:
an absent or empty string falls back to the default. -/
def jsOrStr (o : Option String) (dflt : String) : String :=
  match o with
  | none => dflt
  | some s => if s == "" then dflt else s

/-- `url.includes(sub)`: substring containment. -/
def strIncludes (s sub : String) : Bool :=
  decide (List.IsInfix sub.data s.data)

/-- A local civil date-time, as manipulated through the JavaScript `Date`
API in local time: a day index and milliseconds since local midnight,
plus the opaque renderings `toDateString()` / `toLocaleString()` used in
notification messages. -/
structure LocalDateTime where
  day : Int
  msOfDay : Int
  dateString : String
  localeString : String
deriving DecidableEq

/-- Milliseconds per day. -/
def msPerDay : Int := 86400000

/-- `date.getTime()` for a local civil date-time. -/
def LocalDateTime.toMs (d : LocalDateTime) : Int :=
  d.day * msPerDay + d.msOfDay

/-- `targetDate?.toDateString()` interpolated into a template literal:
an absent date renders as the string `"undefined"`. -/
def dateStrOpt (d : Option LocalDateTime) : String :=
  match d with
  | none => "undefined"
  | some dd => dd.dateString

/-- The comparison instant of `bookCourt` (booking.ts lines 308-309):
`new Date(targetDate || currentTime)` with
`setHours(currentTime.getHours(), ..., currentTime.getMilliseconds())` —
i.e. the target date's day carrying the current wall-clock time-of-day —
converted to epoch milliseconds for `getTime()` comparison. -/
def comparisonMs (targetDate : Option LocalDateTime) (now : LocalDateTime) : Int :=
  (targetDate.getD now).day * msPerDay + now.msOfDay

/-- A discovered slot candidate (booking.ts lines 267, 280-284): the
decoded `start=` query-parameter string and `new Date(startTime).getTime()`
in epoch milliseconds. -/
structure Slot where
  time : String
  dateTime : Int
deriving DecidableEq

/-- A raw `a.slot-btn` element: `start` is the parsed start timestamp, or
`none` when the `data-href` attribute is missing or its `start=` parameter
does not match (such slots are skipped, booking.ts lines 273-285). -/
structure RawSlot where
  start : Option Slot
deriving DecidableEq

/-- Slot discovery (booking.ts lines 269-290): collect every slot whose
start timestamp parses, regardless of disabled state. -/
def discoverSlots (raw : List RawSlot) : List Slot :=
  raw.filterMap RawSlot.start

/-- The sort comparator of booking.ts line 294:
`(a, b) => a.dateTime.getTime() - b.dateTime.getTime()`. -/
def slotLe (a b : Slot) : Prop := a.dateTime ≤ b.dateTime

instance : DecidableRel slotLe := fun a b => Int.decLe a.dateTime b.dateTime

instance : IsTotal Slot slotLe := ⟨fun a b => Int.le_total a.dateTime b.dateTime⟩

instance : IsTrans Slot slotLe := ⟨fun _ _ _ h1 h2 => le_trans h1 h2⟩

/-- Slot selection (booking.ts lines 292-329): sort ascending by start
time, filter to slots strictly after the comparison instant; pick the
first future slot if any, else fall back to the earliest slot overall;
`none` when no slot was discovered. -/
def selectSlot (slots : List Slot) (comp : Int) : Option Slot :=
  match (List.insertionSort slotLe slots).filter (fun s => decide (comp < s.dateTime)) with
  | s :: _ => some s
  | [] => (List.insertionSort slotLe slots).head?

/-- Everything `login()` reads from the live page (booking.ts lines
44-170): whether some step of the flow raises, the URL after submitting,
visibility of post-login markers and error markers, and whether
`page.url()` differs from the captured URL on the second read. -/
structure LoginEnv where
  throws : Bool
  urlAfterSubmit : String
  logoutVisible : Bool
  bookCourtLinkVisible : Bool
  hasErrorMarker : Bool
  urlChangedAgain : Bool
deriving DecidableEq

/-- `CourtBookingAutomation.login()` (booking.ts lines 44-170).
Raises (`.error`) only when the page handle is null; any exception inside
the flow is caught and turned into `false`.  Success is the layered URL /
marker / url-changed check of lines 115-160; on success `isLoggedIn` is
set. -/
def login (st : AState) (env : LoginEnv) : Except String (Bool × AState) :=
  if st.page = false then
    .error "Browser not initialized. Call initialize() first."
  else if env.throws then
    .ok (false, st)
  else
    if strIncludes env.urlAfterSubmit "/Online/Portal/" ||
        strIncludes env.urlAfterSubmit "/dashboard" ||
        strIncludes env.urlAfterSubmit "/home" ||
        !(strIncludes env.urlAfterSubmit "/Account/Login") then
      .ok (true, { st with isLoggedIn := true })
    else if env.logoutVisible || env.bookCourtLinkVisible then
      .ok (true, { st with isLoggedIn := true })
    else if !env.hasErrorMarker && env.urlChangedAgain then
      .ok (true, { st with isLoggedIn := true })
    else
      .ok (false, st)

/-- What the `Promise.race` after a save click resolves to
(booking.ts lines 478-483): a navigation, the SweetAlert2 error popup
(with the visibility and text of its `#swal2-html-container` message), a
success indicator, or the plain 1.5 s timeout. -/
inductive SaveSignal
  | navigation
  | errorPopup (msgVisible : Bool) (msg : String)
  | successIndicator
  | timeoutOnly
deriving DecidableEq

/-- The signal observed by the i-th save attempt; the race always
resolves (the plain-timeout branch is a catch-all), so a short signal
list is padded with `timeoutOnly`. -/
def signalAt (sigs : List SaveSignal) (i : Nat) : SaveSignal :=
  (sigs.get? i).getD .timeoutOnly

/-- Whether a signal is one of the two success signals of
booking.ts line 485. -/
def isSuccessSignal (s : SaveSignal) : Bool :=
  match s with
  | .navigation => true
  | .successIndicator => true
  | _ => false

/-- How the save-retry loop was left. -/
inductive SaveExit
  | savedTrue
  | noButton
  | fellThrough
deriving DecidableEq

/-- Result of the save-retry loop: number of save-button clicks, how the
loop exited, the last captured error-popup text, and — if the
could-not-dismiss `break` fired — the click count at which it fired. -/
structure SaveLoopRes where
  clicks : Nat
  exit : SaveExit
  lastError : Option String
  brokeAt : Option Nat
deriving DecidableEq

/-- One unfolding of the save-retry `for` loop of booking.ts lines
461-543.  `fuel` counts the remaining iterations (`maxSaveRetries - i`),
`i` the iterations already executed (each of which clicked save exactly
once), `lastErr` the captured `lastErrorMessage`.  `pagePresent` is the
truthiness shared by every `this.page?.locator(...)` expression in the
loop body (the save button locator and the error-popup OK button). -/
def saveLoopAux (pagePresent : Bool) (sigs : List SaveSignal) :
    Nat → Nat → Option String → SaveLoopRes
  | 0, i, lastErr => ⟨i, .fellThrough, lastErr, none⟩
  | fuel + 1, i, lastErr =>
    if pagePresent = false then
      ⟨i, .noButton, lastErr, none⟩
    else
      match signalAt sigs i with
      | .navigation => ⟨i + 1, .savedTrue, lastErr, none⟩
      | .successIndicator => ⟨i + 1, .savedTrue, lastErr, none⟩
      | .errorPopup msgVisible msg =>
        let lastErr2 : Option String :=
          some (if msgVisible then msg else "Unknown error from popup.")
        if pagePresent then
          saveLoopAux pagePresent sigs fuel (i + 1) lastErr2
        else
          ⟨i + 1, .fellThrough,
            some (jsOrStr lastErr2 "Critical: Could not dismiss error popup."),
            some (i + 1)⟩
      | .timeoutOnly => saveLoopAux pagePresent sigs fuel (i + 1) lastErr

/-- The save-retry loop (`maxSaveRetries = 3`). -/
def runSaveLoop (pagePresent : Bool) (sigs : List SaveSignal) : SaveLoopRes :=
  saveLoopAux pagePresent sigs 3 0 none

/-- Everything `bookCourt` reads from the live page after the login
guard: the login environment used by an implicit login, the raw slot
elements, whether the slot click raises (with its message), whether a
modal appears, whether the duration-dropdown interaction succeeds,
whether the disclosure-checkbox interaction raises (with its message),
and the per-attempt save signals. -/
structure BookEnv where
  loginEnv : LoginEnv
  rawSlots : List RawSlot
  slotClickThrows : Option String
  modalFound : Bool
  durationOk : Bool
  checkboxThrows : Option String
  saveSignals : List SaveSignal
deriving DecidableEq

/-- Observable outcome of one `bookCourt` call: the returned boolean or
the raised error, the session state afterwards, the notifications handed
to `sendNotification` in order, the number of save-button clicks, whether
the slot-discovery code inside the `try` block ran (`slotPhase`), whether
the modal-found dialog branch ran (`dialogPhase`), the slot whose element
was clicked, and the value returned by the implicit login if one was
invoked and returned. -/
structure BookResult where
  result : Except String Bool
  finalState : AState
  notifications : List Notification
  saveClicks : Nat
  slotPhase : Bool
  dialogPhase : Bool
  clickedSlot : Option Slot
  implicitLogin : Option Bool

/-- Notification of booking.ts lines 341-344 (no selectable time slots). -/
def noSlotsNotification (targetDate : Option LocalDateTime) (now : LocalDateTime) :
    Notification :=
  { title := "❌ Booking Failed: No Timeslots"
    message := "Failed to find any selectable time slots on " ++ dateStrOpt targetDate ++
      ". Please check manually. Attempted at: <b>" ++ now.localeString ++ "</b>." }

/-- Notification of booking.ts lines 568-571 (unexpected error caught at
the top of the booking attempt). -/
def unexpectedErrorNotification (targetDate : Option LocalDateTime) (now : LocalDateTime)
    (targetTime : Option String) (duration errMsg : String) : Notification :=
  { title := "❌ Booking Failed: Unexpected Error"
    message := "An unexpected error occurred during booking for " ++ dateStrOpt targetDate ++
      " at " ++ jsOrStr targetTime "nearest future slot" ++ " for " ++ duration ++
      ". Error: " ++ errMsg ++
      "\nAttempted at: <b>" ++ now.localeString ++ "</b>." ++
      "\nPlease check the CourtReserve website manually: https://usta.courtreserve.com/Online/Portal/Index/5881" }

/-- Notification of booking.ts lines 558-561 (slot clicked, no modal
appeared, optimistic success). -/
def manualConfirmNotification (targetDate : Option LocalDateTime) (now : LocalDateTime)
    (targetTime : Option String) (duration : String) : Notification :=
  { title := "✅ Time Slot Selected (Manual Confirmation Needed)"
    message := "Time slot for <b>" ++ dateStrOpt targetDate ++ "</b> at <b>" ++
      jsOrStr targetTime "nearest future slot" ++ "</b> for <b>" ++ duration ++
      "</b> was selected. Attempted at: <b>" ++ now.localeString ++
      "</b>. No booking modal appeared, manual confirmation needed on: https://usta.courtreserve.com/Online/Reservations/Bookings/5881?sId=294" }

/-- Notification of booking.ts lines 487-490 (booking succeeded). -/
def bookedNotification (targetDate : Option LocalDateTime) (now : LocalDateTime)
    (targetTime : Option String) (duration : String) : Notification :=
  { title := "✅ Tennis Court Booked!"
    message := "Your tennis court for <b>" ++ dateStrOpt targetDate ++ "</b> at <b>" ++
      jsOrStr targetTime "nearest future slot" ++ "</b> for <b>" ++ duration ++
      "</b> was successfully booked. Attempted at: <b>" ++ now.localeString ++
      "</b>. Check your CourtReserve account for details: https://usta.courtreserve.com/Online/Portal/Index/5881" }

/-- Notification of booking.ts lines 466-469 (save button locator
missing). -/
def saveButtonMissingNotification (targetDate : Option LocalDateTime) (now : LocalDateTime)
    (targetTime : Option String) (duration : String) : Notification :=
  { title := "❌ Booking Failed: Save Button Missing"
    message := "Booking failed: Could not find the Save button for " ++ dateStrOpt targetDate ++
      " at " ++ jsOrStr targetTime "nearest future slot" ++ " for " ++ duration ++
      ". Attempted at: <b>" ++ now.localeString ++ "</b>." }

/-- Notification of booking.ts lines 546-550 (save retries exhausted or
retry loop aborted): with a captured error text the message is the
`Reason:` form, else the generic form naming date, time and duration. -/
def saveFailedNotification (targetDate : Option LocalDateTime) (now : LocalDateTime)
    (targetTime : Option String) (duration : String) (lastErr : Option String) :
    Notification :=
  let finalFailureMessage :=
    if jsTruthy lastErr then
      "Booking failed after 3 attempts. Reason: " ++ (lastErr.getD "")
    else
      "Booking failed after 3 attempts for " ++ dateStrOpt targetDate ++ " at " ++
        jsOrStr targetTime "nearest future slot" ++ " for " ++ duration ++
        ". Attempted at: <b>" ++ now.localeString ++ "</b>."
  { title := "❌ Booking Failed"
    message := finalFailureMessage ++ "\nAttempted at: <b>" ++ now.localeString ++ "</b>." ++
      "\nPlease check the CourtReserve website manually: https://usta.courtreserve.com/Online/Portal/Index/5881" }

/-- The body of the `try` block of `bookCourt` (booking.ts lines
184-573), entered after the login guard with session state `st`:
navigation and calendar interaction (no observable effect in the model),
slot discovery and selection, the modal branch with duration selection,
disclosure checkbox and save-retry loop, and the outer `catch` mapping
exceptions to the unexpected-error notification. -/
def bookCourtTry (st : AState) (targetDate : Option LocalDateTime) (now : LocalDateTime)
    (targetTime : Option String) (duration : String) (env : BookEnv)
    (implicitLogin : Option Bool) : BookResult :=
  match selectSlot (discoverSlots env.rawSlots) (comparisonMs targetDate now) with
  | none =>
    -- `timeSelected` stayed false: notify and return false (lines 339-346)
    { result := .ok false, finalState := st
      notifications := [noSlotsNotification targetDate now]
      saveClicks := 0, slotPhase := true, dialogPhase := false
      clickedSlot := none, implicitLogin := implicitLogin }
  | some s =>
    match env.slotClickThrows with
    | some errMsg =>
      -- `selectedSlot.element.click()` raised: outer catch (lines 564-573)
      { result := .ok false, finalState := st
        notifications := [unexpectedErrorNotification targetDate now targetTime duration errMsg]
        saveClicks := 0, slotPhase := true, dialogPhase := false
        clickedSlot := none, implicitLogin := implicitLogin }
    | none =>
      if env.modalFound = false then
        -- no modal: optimistic success (lines 552-563)
        { result := .ok true, finalState := st
          notifications := [manualConfirmNotification targetDate now targetTime duration]
          saveClicks := 0, slotPhase := true, dialogPhase := false
          clickedSlot := some s, implicitLogin := implicitLogin }
      else
        -- dialog branch (lines 374-551); every dialog locator is built by
        -- `this.page?.locator(...)` and is missing exactly when the page
        -- handle is null, in which case the duration-dropdown check
        -- returns false with no notification (lines 382-386)
        if st.page = false then
          { result := .ok false, finalState := st
            notifications := []
            saveClicks := 0, slotPhase := true, dialogPhase := true
            clickedSlot := some s, implicitLogin := implicitLogin }
        else
          -- duration selection falls back to '1 hour' when the dropdown
          -- interaction fails (lines 380-425); the chosen duration string
          -- `if env.durationOk then duration else "1 hour"` is what the
          -- later notifications mention
          match env.checkboxThrows with
          | some errMsg =>
            -- `checkboxInputLocator.isChecked()` / label click raised:
            -- outer catch (lines 564-573)
            { result := .ok false, finalState := st
              notifications := [unexpectedErrorNotification targetDate now targetTime
                (if env.durationOk then duration else "1 hour") errMsg]
              saveClicks := 0, slotPhase := true, dialogPhase := true
              clickedSlot := some s, implicitLogin := implicitLogin }
          | none =>
            match (runSaveLoop st.page env.saveSignals).exit with
            | .savedTrue =>
              { result := .ok true, finalState := st
                notifications := [bookedNotification targetDate now targetTime
                  (if env.durationOk then duration else "1 hour")]
                saveClicks := (runSaveLoop st.page env.saveSignals).clicks
                slotPhase := true, dialogPhase := true
                clickedSlot := some s, implicitLogin := implicitLogin }
            | .noButton =>
              { result := .ok false, finalState := st
                notifications := [saveButtonMissingNotification targetDate now targetTime
                  (if env.durationOk then duration else "1 hour")]
                saveClicks := (runSaveLoop st.page env.saveSignals).clicks
                slotPhase := true, dialogPhase := true
                clickedSlot := some s, implicitLogin := implicitLogin }
            | .fellThrough =>
              { result := .ok false, finalState := st
                notifications := [saveFailedNotification targetDate now targetTime
                  (if env.durationOk then duration else "1 hour")
                  (runSaveLoop st.page env.saveSignals).lastError]
                saveClicks := (runSaveLoop st.page env.saveSignals).clicks
                slotPhase := true, dialogPhase := true
                clickedSlot := some s, implicitLogin := implicitLogin }

/-- `CourtBookingAutomation.bookCourt` (booking.ts lines 172-574): the
login guard (lines 173-179, which throws `'Failed to login'` when the
implicit login returns false, outside the `try` block) followed by the
`try` block. -/
def bookCourtM (st : AState) (targetDate : Option LocalDateTime) (now : LocalDateTime)
    (targetTime : Option String) (duration : String) (env : BookEnv) : BookResult :=
  if st.isLoggedIn then
    bookCourtTry st targetDate now targetTime duration env none
  else
    match login st env.loginEnv with
    | .error e =>
      { result := .error e, finalState := st, notifications := []
        saveClicks := 0, slotPhase := false, dialogPhase := false
        clickedSlot := none, implicitLogin := none }
    | .ok (false, st') =>
      { result := .error "Failed to login", finalState := st', notifications := []
        saveClicks := 0, slotPhase := false, dialogPhase := false
        clickedSlot := none, implicitLogin := some false }
    | .ok (true, st') =>
      bookCourtTry st' targetDate now targetTime duration env (some true)

/-- Environment of the module-level convenience `bookCourt` (booking.ts
lines 588-604): the `USTA_EMAIL` / `USTA_PASSWORD` environment variables,
whether `initialize()` raises (with its message), and the booking
environment for the session's `bookCourt`. -/
structure ModuleEnv where
  email : Option String
  password : Option String
  initThrows : Option String
  bookEnv : BookEnv

/-- Observable outcome of the module-level `bookCourt`: the returned
boolean or raised error, the automation's state when the call finishes
(`none` when the credentials check threw before an automation was
constructed), and how many times `automation.close()` ran. -/
structure ModuleRes where
  result : Except String Bool
  finalState : Option AState
  closeCalls : Nat

/-- The module-level convenience function `bookCourt` (booking.ts lines
588-604): check credentials, construct a fresh automation, and run
`initialize()` then `bookCourt(...)` inside `try { } finally { close() }`. -/
def bookCourtModule (menv : ModuleEnv) (targetDate : Option LocalDateTime)
    (now : LocalDateTime) (targetTime : Option String) (duration : Option String) :
    ModuleRes :=
  if !(jsTruthy menv.email) || !(jsTruthy menv.password) then
    { result := .error "Missing USTA_EMAIL or USTA_PASSWORD environment variables"
      finalState := none, closeCalls := 0 }
  else
    let st0 := AState.empty
    match menv.initThrows with
    | some e =>
      -- initialize() raised; the finally block still runs close()
      { result := .error e, finalState := some (closeFn st0), closeCalls := 1 }
    | none =>
      let st1 := initBrowser st0
      let br := bookCourtM st1 targetDate now targetTime (duration.getD "2 hours") menv.bookEnv
      { result := br.result, finalState := some (closeFn br.finalState), closeCalls := 1 }

/-- The public operations a caller can perform on one
`CourtBookingAutomation` instance, each carrying the environment its
browser interactions observe. -/
inductive Act
  | initBrowser
  | doLogin (env : LoginEnv)
  | doBook (targetDate : Option LocalDateTime) (now : LocalDateTime)
      (targetTime : Option String) (duration : String) (env : BookEnv)
  | doClose

/-- Session state enriched with the bookkeeping needed to state the
authentication invariants: the value returned by the most recent
`login()` call that returned (explicit or implicit), and whether some
`login()` call has returned `true` since the last `close()`. -/
structure TraceState where
  st : AState
  lastLogin : Option Bool
  succSinceClose : Bool
deriving DecidableEq

/-- The state of a freshly constructed `CourtBookingAutomation`. -/
def TraceState.start : TraceState := ⟨AState.empty, none, false⟩

/-- One public operation applied to the session.  A `login()` that raises
does not return a value, so `lastLogin` is unchanged on the `.error`
paths. -/
def stepAct (ts : TraceState) (a : Act) : TraceState :=
  match a with
  | .initBrowser => { ts with st := initBrowser ts.st }
  | .doLogin env =>
    match login ts.st env with
    | .error _ => ts
    | .ok (b, st') =>
      { st := st', lastLogin := some b, succSinceClose := ts.succSinceClose || b }
  | .doBook targetDate now targetTime duration env =>
    let r := bookCourtM ts.st targetDate now targetTime duration env
    match r.implicitLogin with
    | none => { ts with st := r.finalState }
    | some b =>
      { st := r.finalState, lastLogin := some b, succSinceClose := ts.succSinceClose || b }
  | .doClose => { st := closeFn ts.st, lastLogin := ts.lastLogin, succSinceClose := false }

/-- Run a sequence of public operations from a fresh session. -/
def runTrace (acts : List Act) : TraceState :=
  acts.foldl stepAct TraceState.start

/-! ### Concrete demonstration data

Small concrete sessions, dates, slots and environments used to evaluate
the model at specific inputs. -/

/-- A demonstration target date (local day index 0). -/
def demoDate : LocalDateTime := ⟨0, 0, "Wed Jan 03 2024", "Wed Jan 03 2024 00:00"⟩

/-- A demonstration current instant: 100 ms past local midnight of day 0
(so the comparison instant for `demoDate` is 100). -/
def demoNow : LocalDateTime := ⟨0, 100, "Mon Jan 01 2024", "Mon Jan 01 2024 10:30"⟩

/-- A login environment in which the flow succeeds: the post-submit URL
is the member portal. -/
def demoLoginOk : LoginEnv :=
  ⟨false, "https://usta.courtreserve.com/Online/Portal/Index/5881", false, false, false, false⟩

/-- A login environment in which an exception occurs mid-flow, so
`login()` returns `false`. -/
def demoLoginThrow : LoginEnv := ⟨true, "", false, false, false, false⟩

/-- The earlier of the two demonstration slots. -/
def demoSlotEarly : Slot := ⟨"11:00 AM", 200⟩

/-- The later demonstration slot, whose start string is the explicit
target time used in the claims about exact matches. -/
def demoSlotMatch : Slot := ⟨"2:00 PM", 300⟩

/-- An initialized, logged-in session. -/
def demoLoggedIn : AState := ⟨true, true, true, true⟩

/-- An initialized session that is not logged in. -/
def demoReady : AState := ⟨true, true, true, false⟩

/-- A booking environment with two future slots and a save that succeeds
on the first attempt. -/
def demoBookEnv : BookEnv :=
  ⟨demoLoginOk, [⟨some demoSlotMatch⟩, ⟨some demoSlotEarly⟩], none, true, true, none,
    [.navigation]⟩

/-- A booking environment whose only slot element has no parseable start
timestamp. -/
def demoBookEnvNoSlots : BookEnv :=
  ⟨demoLoginOk, [⟨none⟩], none, true, true, none, [.navigation]⟩

/-- A booking environment in which the implicit login fails. -/
def demoBookEnvLoginFails : BookEnv :=
  ⟨demoLoginThrow, [⟨some demoSlotEarly⟩], none, true, true, none, [.navigation]⟩

/-- A trace: initialize, a successful explicit login, then a second
explicit login that returns false (an exception mid-flow). -/
def demoTrace : List Act :=
  [.initBrowser, .doLogin demoLoginOk, .doLogin demoLoginThrow]

/-- A demonstration module environment with credentials present. -/
def demoModuleEnv : ModuleEnv :=
  ⟨some "user@example.com", some "hunter2", none, demoBookEnv⟩

/-! ### Helper lemmas about slot selection -/

lemma selectSlot_mem {slots : List Slot} {comp : Int} {s : Slot}
    (h : selectSlot slots comp = some s) : s ∈ slots := by
  unfold selectSlot at h
  have hperm := List.perm_insertionSort slotLe slots
  cases hcase : (List.insertionSort slotLe slots).filter
      (fun s => decide (comp < s.dateTime)) with
  | cons a l =>
    rw [hcase] at h
    cases h
    have : s ∈ (List.insertionSort slotLe slots).filter
        (fun s => decide (comp < s.dateTime)) := by
      rw [hcase]; exact List.mem_cons_self _ _
    exact hperm.mem_iff.mp (List.mem_filter.mp this).1
  | nil =>
    rw [hcase] at h
    cases hsorted : List.insertionSort slotLe slots with
    | nil => rw [hsorted] at h; cases h
    | cons a l =>
      rw [hsorted] at h
      cases h
      exact hperm.mem_iff.mp (by rw [hsorted]; exact List.mem_cons_self _ _)

lemma selectSlot_future {slots : List Slot} {comp : Int} {t : Slot}
    (ht : t ∈ slots) (htc : comp < t.dateTime) :
    ∃ s, selectSlot slots comp = some s ∧ s ∈ slots ∧ comp < s.dateTime ∧
      ∀ u ∈ slots, comp < u.dateTime → s.dateTime ≤ u.dateTime := by
  have hperm := List.perm_insertionSort slotLe slots
  have hsort : List.Sorted slotLe (List.insertionSort slotLe slots) :=
    List.sorted_insertionSort slotLe slots
  have htmem : t ∈ (List.insertionSort slotLe slots).filter
      (fun s => decide (comp < s.dateTime)) := by
    rw [List.mem_filter]
    exact ⟨hperm.mem_iff.mpr ht, by simpa using htc⟩
  obtain ⟨s, rest, hf⟩ : ∃ s rest, (List.insertionSort slotLe slots).filter
      (fun s => decide (comp < s.dateTime)) = s :: rest := by
    cases hcase : (List.insertionSort slotLe slots).filter
        (fun s => decide (comp < s.dateTime)) with
    | nil => rw [hcase] at htmem; cases htmem
    | cons a l => exact ⟨a, l, rfl⟩
  have hsel : selectSlot slots comp = some s := by
    unfold selectSlot
    rw [hf]
  have hsmem : s ∈ (List.insertionSort slotLe slots).filter
      (fun s => decide (comp < s.dateTime)) := by
    rw [hf]; exact List.mem_cons_self _ _
  have hsslots : s ∈ slots := hperm.mem_iff.mp (List.mem_filter.mp hsmem).1
  have hscomp : comp < s.dateTime := by
    have := (List.mem_filter.mp hsmem).2
    simpa using this
  refine ⟨s, hsel, hsslots, hscomp, ?_⟩
  intro u hu huc
  have humem : u ∈ (List.insertionSort slotLe slots).filter
      (fun s => decide (comp < s.dateTime)) := by
    rw [List.mem_filter]
    exact ⟨hperm.mem_iff.mpr hu, by simpa using huc⟩
  rw [hf] at humem
  have hfsort : List.Sorted slotLe (s :: rest) := hf ▸ hsort.filter _
  rcases List.mem_cons.mp humem with heq | hmem
  · exact le_of_eq (by rw [heq])
  · exact List.rel_of_sorted_cons hfsort u hmem

lemma selectSlot_fallback {slots : List Slot} {comp : Int}
    (hall : ∀ u ∈ slots, u.dateTime ≤ comp) (hne : slots ≠ []) :
    ∃ s, selectSlot slots comp = some s ∧ s ∈ slots ∧
      ∀ u ∈ slots, s.dateTime ≤ u.dateTime := by
  have hperm := List.perm_insertionSort slotLe slots
  have hsort : List.Sorted slotLe (List.insertionSort slotLe slots) :=
    List.sorted_insertionSort slotLe slots
  have hfilter : (List.insertionSort slotLe slots).filter
      (fun s => decide (comp < s.dateTime)) = [] := by
    cases hcase : (List.insertionSort slotLe slots).filter
        (fun s => decide (comp < s.dateTime)) with
    | nil => rfl
    | cons a l =>
      have hamem : a ∈ (List.insertionSort slotLe slots).filter
          (fun s => decide (comp < s.dateTime)) := by
        rw [hcase]; exact List.mem_cons_self _ _
      have haslots : a ∈ slots := hperm.mem_iff.mp (List.mem_filter.mp hamem).1
      have hac : comp < a.dateTime := by
        have := (List.mem_filter.mp hamem).2
        simpa using this
      exact absurd hac (not_lt.mpr (hall a haslots))
  cases hsorted : List.insertionSort slotLe slots with
  | nil =>
    rw [hsorted] at hperm
    exact absurd hperm.symm.eq_nil hne
  | cons s rest =>
    have hsel : selectSlot slots comp = some s := by
      unfold selectSlot
      rw [hfilter, hsorted]
      rfl
    have hsslots : s ∈ slots :=
      hperm.mem_iff.mp (by rw [hsorted]; exact List.mem_cons_self _ _)
    refine ⟨s, hsel, hsslots, ?_⟩
    intro u hu
    have humem : u ∈ s :: rest := by
      rw [← hsorted]
      exact hperm.mem_iff.mpr hu
    rcases List.mem_cons.mp humem with heq | hmem
    · exact le_of_eq (by rw [heq])
    · exact List.rel_of_sorted_cons (hsorted ▸ hsort) u hmem

lemma selectSlot_nil {comp : Int} : selectSlot [] comp = none := rfl

/-! ### Helper lemmas about `login` -/

lemma login_ok_cases {st : AState} {env : LoginEnv} {b : Bool} {st' : AState}
    (h : login st env = .ok (b, st')) :
    st.page = true ∧
      ((b = false ∧ st' = st) ∨ (b = true ∧ st' = { st with isLoggedIn := true })) := by
  unfold login at h
  split at h
  · cases h
  · rename_i hcond
    have hp : st.page = true := by
      cases hpp : st.page with
      | false => exact absurd hpp hcond
      | true => rfl
    refine ⟨hp, ?_⟩
    split at h
    · injection h with h1
      injection h1 with hb hst
      exact Or.inl ⟨hb.symm, hst.symm⟩
    · split at h
      · injection h with h1
        injection h1 with hb hst
        exact Or.inr ⟨hb.symm, hst.symm⟩
      · split at h
        · injection h with h1
          injection h1 with hb hst
          exact Or.inr ⟨hb.symm, hst.symm⟩
        · split at h
          · injection h with h1
            injection h1 with hb hst
            exact Or.inr ⟨hb.symm, hst.symm⟩
          · injection h with h1
            injection h1 with hb hst
            exact Or.inl ⟨hb.symm, hst.symm⟩

lemma login_error_cases {st : AState} {env : LoginEnv} {e : String}
    (h : login st env = .error e) :
    st.page = false ∧ e = "Browser not initialized. Call initialize() first." := by
  unfold login at h
  split at h
  · injection h with he
    exact ⟨by assumption, he.symm⟩
  · split at h
    · cases h
    · split at h
      · cases h
      · split at h
        · cases h
        · split at h
          · cases h
          · cases h

/-! ### Helper lemmas about `bookCourtTry` -/

lemma bookCourtTry_finalState (st : AState) (targetDate : Option LocalDateTime)
    (now : LocalDateTime) (targetTime : Option String) (duration : String)
    (env : BookEnv) (il : Option Bool) :
    (bookCourtTry st targetDate now targetTime duration env il).finalState = st := by
  unfold bookCourtTry
  cases selectSlot (discoverSlots env.rawSlots) (comparisonMs targetDate now) with
  | none => rfl
  | some s =>
    cases env.slotClickThrows with
    | some e => rfl
    | none =>
      dsimp only
      split
      · rfl
      · split
        · rfl
        · cases env.checkboxThrows with
          | some e => rfl
          | none =>
            dsimp only
            cases (runSaveLoop st.page env.saveSignals).exit <;> rfl

lemma bookCourtTry_slotPhase (st : AState) (targetDate : Option LocalDateTime)
    (now : LocalDateTime) (targetTime : Option String) (duration : String)
    (env : BookEnv) (il : Option Bool) :
    (bookCourtTry st targetDate now targetTime duration env il).slotPhase = true := by
  unfold bookCourtTry
  cases selectSlot (discoverSlots env.rawSlots) (comparisonMs targetDate now) with
  | none => rfl
  | some s =>
    cases env.slotClickThrows with
    | some e => rfl
    | none =>
      dsimp only
      split
      · rfl
      · split
        · rfl
        · cases env.checkboxThrows with
          | some e => rfl
          | none =>
            dsimp only
            cases (runSaveLoop st.page env.saveSignals).exit <;> rfl

lemma bookCourtTry_clickedSlot (st : AState) (targetDate : Option LocalDateTime)
    (now : LocalDateTime) (targetTime : Option String) (duration : String)
    (env : BookEnv) (il : Option Bool) :
    (bookCourtTry st targetDate now targetTime duration env il).clickedSlot =
      match selectSlot (discoverSlots env.rawSlots) (comparisonMs targetDate now),
          env.slotClickThrows with
      | none, _ => none
      | some _, some _ => none
      | some s, none => some s := by
  unfold bookCourtTry
  cases selectSlot (discoverSlots env.rawSlots) (comparisonMs targetDate now) with
  | none => rfl
  | some s =>
    cases env.slotClickThrows with
    | some e => rfl
    | none =>
      dsimp only
      split
      · rfl
      · split
        · rfl
        · cases env.checkboxThrows with
          | some e => rfl
          | none =>
            dsimp only
            cases (runSaveLoop st.page env.saveSignals).exit <;> rfl

lemma bookCourtTry_notifications_ne_nil {st : AState} {targetDate : Option LocalDateTime}
    {now : LocalDateTime} {targetTime : Option String} {duration : String}
    {env : BookEnv} {il : Option Bool} (hpage : st.page = true)
    (hres : (bookCourtTry st targetDate now targetTime duration env il).result = .ok false) :
    (bookCourtTry st targetDate now targetTime duration env il).notifications ≠ [] := by
  unfold bookCourtTry at hres ⊢
  cases hsel : selectSlot (discoverSlots env.rawSlots) (comparisonMs targetDate now) with
  | none => simp
  | some s =>
    rw [hsel] at hres
    cases hct : env.slotClickThrows with
    | some e => simp
    | none =>
      rw [hct] at hres
      dsimp only at hres ⊢
      by_cases hm : env.modalFound = false
      · rw [if_pos hm] at hres
        simp at hres
      · rw [if_neg hm] at hres ⊢
        rw [hpage] at hres ⊢
        rw [if_neg (by decide : ¬(true = false))] at hres ⊢
        cases hcb : env.checkboxThrows with
        | some e => simp
        | none =>
          rw [hcb] at hres
          dsimp only at hres ⊢
          cases hexit : (runSaveLoop true env.saveSignals).exit <;>
            rw [hexit] at hres <;> simp_all

/-! ### Helper lemmas about the save-retry loop -/

lemma saveLoopAux_clicks_le (pp : Bool) (sigs : List SaveSignal) :
    ∀ fuel i le, (saveLoopAux pp sigs fuel i le).clicks ≤ i + fuel := by
  intro fuel
  induction fuel with
  | zero =>
    intro i le
    simp [saveLoopAux]
  | succ n ih =>
    intro i le
    unfold saveLoopAux
    split
    · dsimp only
      omega
    · cases hsig : signalAt sigs i with
      | navigation =>
        dsimp only
        omega
      | successIndicator =>
        dsimp only
        omega
      | errorPopup v m =>
        dsimp only
        split
        · have h := ih (i + 1) (some (if v then m else "Unknown error from popup."))
          omega
        · dsimp only
          omega
      | timeoutOnly =>
        dsimp only
        have h := ih (i + 1) le
        omega

lemma saveLoopAux_success {pp : Bool} {sigs : List SaveSignal} (hpp : pp = true) :
    ∀ fuel i le k, k < fuel →
      isSuccessSignal (signalAt sigs (i + k)) = true →
      (∀ j, j < k → isSuccessSignal (signalAt sigs (i + j)) = false) →
      (saveLoopAux pp sigs fuel i le).clicks = i + k + 1 ∧
        (saveLoopAux pp sigs fuel i le).exit = .savedTrue := by
  subst hpp
  intro fuel
  induction fuel with
  | zero =>
    intro i le k hk
    exact absurd hk (Nat.not_lt_zero k)
  | succ n ih =>
    intro i le k hk hksucc hprev
    unfold saveLoopAux
    rw [if_neg (by decide : ¬((true : Bool) = false))]
    cases hsig : signalAt sigs i with
    | navigation =>
      cases k with
      | zero => simp
      | succ k2 =>
        have h0 := hprev 0 (Nat.succ_pos k2)
        rw [Nat.add_zero] at h0
        rw [hsig] at h0
        cases h0
    | successIndicator =>
      cases k with
      | zero => simp
      | succ k2 =>
        have h0 := hprev 0 (Nat.succ_pos k2)
        rw [Nat.add_zero] at h0
        rw [hsig] at h0
        cases h0
    | errorPopup v m =>
      cases k with
      | zero =>
        rw [Nat.add_zero] at hksucc
        rw [hsig] at hksucc
        cases hksucc
      | succ k2 =>
        dsimp only
        rw [if_pos (rfl : (true : Bool) = true)]
        have hrec := ih (i + 1) (some (if v then m else "Unknown error from popup."))
          k2 (Nat.lt_of_succ_lt_succ hk)
          (by
            have hidx : i + 1 + k2 = i + (k2 + 1) := by omega
            rw [hidx]
            exact hksucc)
          (by
            intro j hj
            have hidx : i + 1 + j = i + (j + 1) := by omega
            rw [hidx]
            exact hprev (j + 1) (Nat.succ_lt_succ hj))
        refine ⟨?_, hrec.2⟩
        rw [hrec.1]
        omega
    | timeoutOnly =>
      cases k with
      | zero =>
        rw [Nat.add_zero] at hksucc
        rw [hsig] at hksucc
        cases hksucc
      | succ k2 =>
        dsimp only
        have hrec := ih (i + 1) le k2 (Nat.lt_of_succ_lt_succ hk)
          (by
            have hidx : i + 1 + k2 = i + (k2 + 1) := by omega
            rw [hidx]
            exact hksucc)
          (by
            intro j hj
            have hidx : i + 1 + j = i + (j + 1) := by omega
            rw [hidx]
            exact hprev (j + 1) (Nat.succ_lt_succ hj))
        refine ⟨?_, hrec.2⟩
        rw [hrec.1]
        omega

lemma saveLoopAux_broke (pp : Bool) (sigs : List SaveSignal) :
    ∀ fuel i le, (saveLoopAux pp sigs fuel i le).brokeAt = none ∨
      ((saveLoopAux pp sigs fuel i le).brokeAt =
          some (saveLoopAux pp sigs fuel i le).clicks ∧
        (saveLoopAux pp sigs fuel i le).exit = .fellThrough) := by
  intro fuel
  induction fuel with
  | zero =>
    intro i le
    exact Or.inl rfl
  | succ m ih =>
    intro i le
    unfold saveLoopAux
    split
    · exact Or.inl rfl
    · cases hsig : signalAt sigs i with
      | navigation => exact Or.inl rfl
      | successIndicator => exact Or.inl rfl
      | errorPopup v msg =>
        dsimp only
        split
        · exact ih (i + 1) (some (if v then msg else "Unknown error from popup."))
        · exact Or.inr ⟨rfl, rfl⟩
      | timeoutOnly => exact ih (i + 1) le

/-! ### Session-lifecycle invariants -/

lemma closeFn_browser (st : AState) : (closeFn st).browser = false := by
  unfold closeFn
  split
  · rfl
  · rename_i hb
    cases hbrowser : st.browser with
    | false => rfl
    | true => exact absurd hbrowser hb

lemma bookCourtTry_implicitLogin (st : AState) (targetDate : Option LocalDateTime)
    (now : LocalDateTime) (targetTime : Option String) (duration : String)
    (env : BookEnv) (il : Option Bool) :
    (bookCourtTry st targetDate now targetTime duration env il).implicitLogin = il := by
  unfold bookCourtTry
  cases selectSlot (discoverSlots env.rawSlots) (comparisonMs targetDate now) with
  | none => rfl
  | some s =>
    cases env.slotClickThrows with
    | some e => rfl
    | none =>
      dsimp only
      split
      · rfl
      · split
        · rfl
        · cases env.checkboxThrows with
          | some e => rfl
          | none =>
            dsimp only
            cases (runSaveLoop st.page env.saveSignals).exit <;> rfl

lemma bookCourtM_cases (st : AState) (targetDate : Option LocalDateTime)
    (now : LocalDateTime) (targetTime : Option String) (duration : String)
    (env : BookEnv) :
    ((bookCourtM st targetDate now targetTime duration env).finalState = st ∧
      (bookCourtM st targetDate now targetTime duration env).implicitLogin ≠ some true) ∨
    ((bookCourtM st targetDate now targetTime duration env).finalState =
        { st with isLoggedIn := true } ∧
      (bookCourtM st targetDate now targetTime duration env).implicitLogin = some true ∧
      st.page = true) := by
  unfold bookCourtM
  by_cases hL : st.isLoggedIn = true
  · rw [if_pos hL]
    refine Or.inl ⟨bookCourtTry_finalState _ _ _ _ _ _ _, ?_⟩
    rw [bookCourtTry_implicitLogin]
    simp
  · rw [if_neg hL]
    cases hlog : login st env.loginEnv with
    | error e => exact Or.inl ⟨rfl, by simp⟩
    | ok p =>
      obtain ⟨b, st'⟩ := p
      obtain ⟨hpage, hcases⟩ := login_ok_cases hlog
      cases hcases with
      | inl hfalse =>
        obtain ⟨hb, hst⟩ := hfalse
        subst hb
        subst hst
        exact Or.inl ⟨rfl, by simp⟩
      | inr htrue =>
        obtain ⟨hb, hst⟩ := htrue
        subst hb
        subst hst
        exact Or.inr ⟨bookCourtTry_finalState _ _ _ _ _ _ _,
          bookCourtTry_implicitLogin _ _ _ _ _ _ _, hpage⟩

/-- The invariant maintained by every public operation: a null browser
handle means the whole session is in the uninitialized state, and the
`isLoggedIn` flag can only be up while some `login()` call has returned
true since the last `close()`. -/
def GoodTS (ts : TraceState) : Prop :=
  (ts.st.browser = false → ts.st = AState.empty) ∧
  (ts.st.isLoggedIn = true → ts.succSinceClose = true)

lemma stepAct_good {ts : TraceState} (a : Act) (h : GoodTS ts) : GoodTS (stepAct ts a) := by
  obtain ⟨hinv, hlog⟩ := h
  cases a with
  | initBrowser =>
    unfold stepAct
    dsimp only
    refine ⟨fun hb => ?_, fun hl => hlog hl⟩
    simp [initBrowser] at hb
  | doLogin env =>
    unfold stepAct
    dsimp only
    cases hl : login ts.st env with
    | error e => exact ⟨hinv, hlog⟩
    | ok p =>
      obtain ⟨b, st'⟩ := p
      obtain ⟨hpage, hcases⟩ := login_ok_cases hl
      dsimp only
      cases hcases with
      | inl hfalse =>
        obtain ⟨hb, hst⟩ := hfalse
        subst hb
        subst hst
        refine ⟨fun hb => hinv hb, fun hli => ?_⟩
        dsimp only at hli ⊢
        simp only [Bool.or_false]
        exact hlog hli
      | inr htrue =>
        obtain ⟨hb, hst⟩ := htrue
        subst hb
        subst hst
        refine ⟨fun hb => ?_, fun _ => ?_⟩
        · dsimp only at hb
          have := hinv hb
          rw [this] at hpage
          cases hpage
        · dsimp only
          simp only [Bool.or_true]
  | doBook targetDate now targetTime duration env =>
    unfold stepAct
    dsimp only
    rcases bookCourtM_cases ts.st targetDate now targetTime duration env with
      ⟨hfs, hil⟩ | ⟨hfs, hil, hpage⟩
    · cases hil2 : (bookCourtM ts.st targetDate now targetTime duration env).implicitLogin with
      | none =>
        dsimp only
        rw [hfs]
        exact ⟨hinv, hlog⟩
      | some b =>
        dsimp only
        rw [hfs]
        cases b with
        | true => exact absurd hil2 hil
        | false =>
          refine ⟨fun hb => hinv hb, fun hli => ?_⟩
          dsimp only at hli ⊢
          simp only [Bool.or_false]
          exact hlog hli
    · rw [hil]
      dsimp only
      rw [hfs]
      refine ⟨fun hb => ?_, fun _ => ?_⟩
      · dsimp only at hb
        have := hinv hb
        rw [this] at hpage
        cases hpage
      · dsimp only
        simp only [Bool.or_true]
  | doClose =>
    unfold stepAct
    dsimp only
    refine ⟨fun hb => ?_, fun hl => ?_⟩
    · dsimp only at hb ⊢
      unfold closeFn at hb ⊢
      split
      · rfl
      · rename_i hbt
        cases hbrowser : ts.st.browser with
        | false => exact hinv hbrowser
        | true => exact absurd hbrowser hbt
    · exfalso
      dsimp only at hl
      revert hl
      unfold closeFn
      split
      · intro hl
        cases hl
      · rename_i hbt
        cases hbrowser : ts.st.browser with
        | false =>
          rw [hinv hbrowser]
          intro hl
          cases hl
        | true => exact absurd hbrowser hbt

lemma runTrace_good_aux : ∀ (acts : List Act) (ts : TraceState), GoodTS ts →
    GoodTS (acts.foldl stepAct ts) := by
  intro acts
  induction acts with
  | nil => intro ts h; exact h
  | cons a rest ih =>
    intro ts h
    exact ih (stepAct ts a) (stepAct_good a h)

lemma runTrace_good (acts : List Act) : GoodTS (runTrace acts) :=
  runTrace_good_aux acts TraceState.start ⟨fun _ => rfl, fun h => by cases h⟩

lemma bookCourtM_clickedSlot {st : AState} {targetDate : Option LocalDateTime}
    {now : LocalDateTime} {targetTime : Option String} {duration : String} {env : BookEnv}
    (hL : st.isLoggedIn = true) (hct : env.slotClickThrows = none) :
    (bookCourtM st targetDate now targetTime duration env).clickedSlot =
      selectSlot (discoverSlots env.rawSlots) (comparisonMs targetDate now) := by
  unfold bookCourtM
  rw [if_pos hL]
  rw [bookCourtTry_clickedSlot]
  rw [hct]
  cases selectSlot (discoverSlots env.rawSlots) (comparisonMs targetDate now) <;> rfl

lemma bookCourtTry_save_true {st : AState} {targetDate : Option LocalDateTime}
    {now : LocalDateTime} {targetTime : Option String} {duration : String}
    {env : BookEnv} {il : Option Bool}
    (hexit : (runSaveLoop st.page env.saveSignals).exit = SaveExit.savedTrue)
    (hclicks : 0 < (bookCourtTry st targetDate now targetTime duration env il).saveClicks) :
    (bookCourtTry st targetDate now targetTime duration env il).result = .ok true := by
  unfold bookCourtTry at hclicks ⊢
  cases hsel : selectSlot (discoverSlots env.rawSlots) (comparisonMs targetDate now) with
  | none =>
    rw [hsel] at hclicks
    simp at hclicks
  | some s =>
    rw [hsel] at hclicks
    cases hct : env.slotClickThrows with
    | some e =>
      rw [hct] at hclicks
      simp at hclicks
    | none =>
      rw [hct] at hclicks
      dsimp only at hclicks ⊢
      by_cases hm : env.modalFound = false
      · rw [if_pos hm] at hclicks
        simp at hclicks
      · rw [if_neg hm] at hclicks ⊢
        by_cases hpage : st.page = false
        · rw [if_pos hpage] at hclicks
          simp at hclicks
        · rw [if_neg hpage] at hclicks ⊢
          cases hcb : env.checkboxThrows with
          | some e =>
            rw [hcb] at hclicks
            simp at hclicks
          | none =>
            rw [hcb] at hclicks
            dsimp only at hclicks ⊢
            cases hexit2 : (runSaveLoop st.page env.saveSignals).exit with
            | savedTrue => rfl
            | noButton =>
              rw [hexit2] at hexit
              cases hexit
            | fellThrough =>
              rw [hexit2] at hexit
              cases hexit

/-! ### Claim theorems -/

/-- C1: for every `bookCourt` call with no explicit target time, on a
non-empty set of discovered slots with parseable start timestamps, the
slot clicked is the earliest slot strictly after the comparison instant
(target date combined with the current wall-clock time-of-day); when no
slot is strictly after that instant, it is the earliest slot overall. -/
theorem bookCourt_selects_earliest_future_slot
    (st : AState) (targetDate : Option LocalDateTime) (now : LocalDateTime)
    (duration : String) (env : BookEnv)
    (hL : st.isLoggedIn = true) (hct : env.slotClickThrows = none)
    (hne : discoverSlots env.rawSlots ≠ []) :
    ∃ s, (bookCourtM st targetDate now none duration env).clickedSlot = some s ∧
      s ∈ discoverSlots env.rawSlots ∧
      ((∃ t ∈ discoverSlots env.rawSlots, comparisonMs targetDate now < t.dateTime) →
        comparisonMs targetDate now < s.dateTime ∧
        ∀ u ∈ discoverSlots env.rawSlots,
          comparisonMs targetDate now < u.dateTime → s.dateTime ≤ u.dateTime) ∧
      ((∀ u ∈ discoverSlots env.rawSlots, u.dateTime ≤ comparisonMs targetDate now) →
        ∀ u ∈ discoverSlots env.rawSlots, s.dateTime ≤ u.dateTime) := by
  rw [bookCourtM_clickedSlot hL hct]
  by_cases hfut : ∃ t ∈ discoverSlots env.rawSlots, comparisonMs targetDate now < t.dateTime
  · obtain ⟨t, htmem, htc⟩ := hfut
    obtain ⟨sc, hsel, hmem, hcomp, hmin⟩ := selectSlot_future htmem htc
    exact ⟨sc, hsel, hmem, fun _ => ⟨hcomp, hmin⟩,
      fun hall => absurd htc (not_lt.mpr (hall t htmem))⟩
  · have hall : ∀ u ∈ discoverSlots env.rawSlots,
        u.dateTime ≤ comparisonMs targetDate now := by
      intro u hu
      by_contra hcon
      exact hfut ⟨u, hu, lt_of_not_le hcon⟩
    obtain ⟨sc, hsel, hmem, hmin⟩ := selectSlot_fallback hall hne
    exact ⟨sc, hsel, hmem, fun hex => absurd hex hfut, fun _ => hmin⟩

/-- Witness for C1 at a concrete logged-in session with two future slots:
some slot is clicked and it satisfies the selection policy. -/
theorem bookCourt_selects_earliest_future_slot_witness :
    ∃ s, (bookCourtM demoLoggedIn (some demoDate) demoNow none "2 hours"
        demoBookEnv).clickedSlot = some s ∧
      s ∈ discoverSlots demoBookEnv.rawSlots ∧
      ((∃ t ∈ discoverSlots demoBookEnv.rawSlots,
          comparisonMs (some demoDate) demoNow < t.dateTime) →
        comparisonMs (some demoDate) demoNow < s.dateTime ∧
        ∀ u ∈ discoverSlots demoBookEnv.rawSlots,
          comparisonMs (some demoDate) demoNow < u.dateTime → s.dateTime ≤ u.dateTime) ∧
      ((∀ u ∈ discoverSlots demoBookEnv.rawSlots,
          u.dateTime ≤ comparisonMs (some demoDate) demoNow) →
        ∀ u ∈ discoverSlots demoBookEnv.rawSlots, s.dateTime ≤ u.dateTime) :=
  bookCourt_selects_earliest_future_slot demoLoggedIn (some demoDate) demoNow
    "2 hours" demoBookEnv rfl rfl (by decide)

/-- C2 counterexample: with explicit target time "2:00 PM" and a
discovered slot whose parsed start string is exactly "2:00 PM", the slot
clicked is the earlier "11:00 AM" slot, not the textual match — the
selection code never consults the target time. -/
theorem bookCourt_ignores_target_time_counterexample :
    (bookCourtM demoLoggedIn (some demoDate) demoNow (some "2:00 PM") "2 hours"
        demoBookEnv).clickedSlot = some demoSlotEarly ∧
    demoSlotMatch ∈ discoverSlots demoBookEnv.rawSlots ∧
    demoSlotMatch.time = "2:00 PM" ∧
    demoSlotEarly.time ≠ "2:00 PM" := by
  refine ⟨by decide, by decide, rfl, by decide⟩

/-- C2 amended: the slot clicked by `bookCourt` is independent of the
explicit target time argument; `targetTime` only appears in notification
text, so the slot selection with a target time is identical to the
selection without one. -/
theorem bookCourt_slot_choice_ignores_target_time
    (st : AState) (targetDate : Option LocalDateTime) (now : LocalDateTime)
    (targetTime : Option String) (duration : String) (env : BookEnv) :
    (bookCourtM st targetDate now targetTime duration env).clickedSlot =
      (bookCourtM st targetDate now none duration env).clickedSlot := by
  unfold bookCourtM
  by_cases hL : st.isLoggedIn = true
  · rw [if_pos hL, if_pos hL]
    rw [bookCourtTry_clickedSlot, bookCourtTry_clickedSlot]
  · rw [if_neg hL, if_neg hL]
    cases hlog : login st env.loginEnv with
    | error e => rfl
    | ok p =>
      obtain ⟨b, st'⟩ := p
      cases b with
      | false => rfl
      | true =>
        dsimp only
        rw [bookCourtTry_clickedSlot, bookCourtTry_clickedSlot]

/-- C3: in every execution of the save-with-retry loop the save button is
clicked at most 3 times; once a navigation or success-marker signal is
observed the loop stops (the booking call returns true); and once the
error-dialog dismiss control cannot be located, the loop is exited
immediately with no further click. -/
theorem save_retry_loop_clicks_bounded (pp : Bool) (sigs : List SaveSignal) :
    (runSaveLoop pp sigs).clicks ≤ 3 ∧
    (∀ k, k < 3 → pp = true → isSuccessSignal (signalAt sigs k) = true →
      (∀ j, j < k → isSuccessSignal (signalAt sigs j) = false) →
      (runSaveLoop pp sigs).clicks = k + 1 ∧
        (runSaveLoop pp sigs).exit = SaveExit.savedTrue) ∧
    (∀ n, (runSaveLoop pp sigs).brokeAt = some n →
      (runSaveLoop pp sigs).clicks = n ∧
        (runSaveLoop pp sigs).exit = SaveExit.fellThrough) ∧
    (∀ (st : AState) (targetDate : Option LocalDateTime) (now : LocalDateTime)
        (targetTime : Option String) (duration : String) (env : BookEnv),
      0 < (bookCourtM st targetDate now targetTime duration env).saveClicks →
      (runSaveLoop st.page env.saveSignals).exit = SaveExit.savedTrue →
      (bookCourtM st targetDate now targetTime duration env).result = .ok true) := by
  refine ⟨?_, ?_, ?_, ?_⟩
  · have h := saveLoopAux_clicks_le pp sigs 3 0 none
    unfold runSaveLoop
    omega
  · intro k hk hpp hsucc hprev
    have h := saveLoopAux_success hpp 3 0 none k hk
      (by rw [Nat.zero_add]; exact hsucc)
      (by intro j hj; rw [Nat.zero_add]; exact hprev j hj)
    unfold runSaveLoop
    refine ⟨?_, h.2⟩
    have h1 := h.1
    omega
  · intro n hbroke
    rcases saveLoopAux_broke pp sigs 3 0 none with hnone | ⟨heq, hexit⟩
    · unfold runSaveLoop at hbroke
      rw [hnone] at hbroke
      cases hbroke
    · unfold runSaveLoop at hbroke ⊢
      rw [heq] at hbroke
      injection hbroke with hn
      exact ⟨hn, hexit⟩
  · intro st targetDate now targetTime duration env hclicks hexit
    unfold bookCourtM at hclicks ⊢
    by_cases hL : st.isLoggedIn = true
    · rw [if_pos hL] at hclicks ⊢
      exact bookCourtTry_save_true hexit hclicks
    · rw [if_neg hL] at hclicks ⊢
      cases hlog : login st env.loginEnv with
      | error e =>
        rw [hlog] at hclicks
        simp at hclicks
      | ok p =>
        obtain ⟨b, st'⟩ := p
        cases b with
        | false =>
          rw [hlog] at hclicks
          simp at hclicks
        | true =>
          rw [hlog] at hclicks
          dsimp only at hclicks ⊢
          obtain ⟨hpage, hcases⟩ := login_ok_cases hlog
          rcases hcases with ⟨hb, _⟩ | ⟨_, hst⟩
          · cases hb
          · subst hst
            exact bookCourtTry_save_true (by exact hexit) hclicks

/-- Witness for C3: with a navigation signal on the first attempt, the
loop clicks once, within the bound. -/
theorem save_retry_loop_clicks_bounded_witness :
    (runSaveLoop true [SaveSignal.navigation]).clicks ≤ 3 ∧
    (runSaveLoop true [SaveSignal.navigation]).clicks = 1 := by
  have h := save_retry_loop_clicks_bounded true [SaveSignal.navigation]
  refine ⟨h.1, ?_⟩
  have h2 := h.2.1 0 (by decide) rfl (by decide)
    (fun j hj => absurd hj (Nat.not_lt_zero j))
  exact h2.1

set_option maxRecDepth 100000 in
/-- C4 counterexample: a `bookCourt` call with target time "2:00 PM" and
duration "2 hours" that finds no slots returns false and sends exactly
the no-timeslots notification, whose message names neither the requested
time nor the duration. -/
theorem failure_notification_omits_time_duration_counterexample :
    (bookCourtM demoLoggedIn (some demoDate) demoNow (some "2:00 PM") "2 hours"
        demoBookEnvNoSlots).result = .ok false ∧
    (bookCourtM demoLoggedIn (some demoDate) demoNow (some "2:00 PM") "2 hours"
        demoBookEnvNoSlots).notifications =
      [noSlotsNotification (some demoDate) demoNow] ∧
    strIncludes (noSlotsNotification (some demoDate) demoNow).message "2 hours" = false ∧
    strIncludes (noSlotsNotification (some demoDate) demoNow).message "2:00 PM" = false := by
  refine ⟨rfl, rfl, by decide, by decide⟩

/-- C4 amended: on every reachable execution (logged-in sessions have a
page handle), a `bookCourt` call that returns false hands at least one
notification to the notifier; the no-slots and captured-reason messages
name the target date and attempt timestamp but omit the target time and
duration. -/
theorem false_return_always_notifies
    (st : AState) (targetDate : Option LocalDateTime) (now : LocalDateTime)
    (targetTime : Option String) (duration : String) (env : BookEnv)
    (hinv : st.isLoggedIn = true → st.page = true)
    (hres : (bookCourtM st targetDate now targetTime duration env).result = .ok false) :
    (bookCourtM st targetDate now targetTime duration env).notifications ≠ [] := by
  unfold bookCourtM at hres ⊢
  by_cases hL : st.isLoggedIn = true
  · rw [if_pos hL] at hres ⊢
    exact bookCourtTry_notifications_ne_nil (hinv hL) hres
  · rw [if_neg hL] at hres ⊢
    cases hlog : login st env.loginEnv with
    | error e =>
      rw [hlog] at hres
      simp at hres
    | ok p =>
      obtain ⟨b, st'⟩ := p
      cases b with
      | false =>
        rw [hlog] at hres
        simp at hres
      | true =>
        rw [hlog] at hres
        dsimp only at hres ⊢
        obtain ⟨hpage, hcases⟩ := login_ok_cases hlog
        rcases hcases with ⟨hb, _⟩ | ⟨_, hst⟩
        · cases hb
        · subst hst
          exact bookCourtTry_notifications_ne_nil (by exact hpage) hres

/-- Witness for C4 amended: the concrete no-slots run sends a
notification. -/
theorem false_return_always_notifies_witness :
    (bookCourtM demoLoggedIn (some demoDate) demoNow none "2 hours"
        demoBookEnvNoSlots).notifications ≠ [] :=
  false_return_always_notifies demoLoggedIn (some demoDate) demoNow none "2 hours"
    demoBookEnvNoSlots (fun _ => rfl) rfl

/-- C5 counterexample: on an initialized, not-logged-in session whose
implicit login returns false, `bookCourt` raises the error
"Failed to login" to its caller instead of recovering it into a boolean. -/
theorem implicit_login_failure_raises_counterexample :
    (bookCourtM demoReady (some demoDate) demoNow none "2 hours"
        demoBookEnvLoginFails).result = .error "Failed to login" := rfl

/-- C5 amended: whenever the implicit login attempt of `bookCourt`
returns false, the call raises the exception "Failed to login" past the
`bookCourt` call (the guard throws before the `try` block); the
authentication failure is not recovered locally into a boolean. -/
theorem implicit_login_failure_raises
    (st : AState) (targetDate : Option LocalDateTime) (now : LocalDateTime)
    (targetTime : Option String) (duration : String) (env : BookEnv) (st' : AState)
    (hnl : st.isLoggedIn = false)
    (hlog : login st env.loginEnv = .ok (false, st')) :
    (bookCourtM st targetDate now targetTime duration env).result =
      .error "Failed to login" := by
  unfold bookCourtM
  rw [if_neg (by rw [hnl]; decide)]
  rw [hlog]

/-- Witness for C5 amended at the concrete failing-login session. -/
theorem implicit_login_failure_raises_witness :
    (bookCourtM demoReady (some demoDate) demoNow none "2 hours"
        demoBookEnvLoginFails).result = .error "Failed to login" :=
  implicit_login_failure_raises demoReady (some demoDate) demoNow none "2 hours"
    demoBookEnvLoginFails demoReady rfl rfl

/-- C6: when slot discovery yields zero slots with a parseable start
timestamp, `bookCourt` returns false, sends exactly the
no-timeslots notification, and neither the dialog-handling branch nor the
save-retry loop executes. -/
theorem no_parseable_slots_fails_without_dialog
    (st : AState) (targetDate : Option LocalDateTime) (now : LocalDateTime)
    (targetTime : Option String) (duration : String) (env : BookEnv)
    (hL : st.isLoggedIn = true)
    (hslots : discoverSlots env.rawSlots = []) :
    (bookCourtM st targetDate now targetTime duration env).result = .ok false ∧
    (bookCourtM st targetDate now targetTime duration env).notifications =
      [noSlotsNotification targetDate now] ∧
    (bookCourtM st targetDate now targetTime duration env).dialogPhase = false ∧
    (bookCourtM st targetDate now targetTime duration env).saveClicks = 0 := by
  unfold bookCourtM
  rw [if_pos hL]
  unfold bookCourtTry
  rw [hslots, selectSlot_nil]
  exact ⟨rfl, rfl, rfl, rfl⟩

/-- Witness for C6 at a concrete environment whose one slot element has
no parseable timestamp. -/
theorem no_parseable_slots_fails_without_dialog_witness :
    (bookCourtM demoLoggedIn (some demoDate) demoNow none "2 hours"
        demoBookEnvNoSlots).result = .ok false ∧
    (bookCourtM demoLoggedIn (some demoDate) demoNow none "2 hours"
        demoBookEnvNoSlots).notifications =
      [noSlotsNotification (some demoDate) demoNow] ∧
    (bookCourtM demoLoggedIn (some demoDate) demoNow none "2 hours"
        demoBookEnvNoSlots).dialogPhase = false ∧
    (bookCourtM demoLoggedIn (some demoDate) demoNow none "2 hours"
        demoBookEnvNoSlots).saveClicks = 0 :=
  no_parseable_slots_fails_without_dialog demoLoggedIn (some demoDate) demoNow
    none "2 hours" demoBookEnvNoSlots rfl rfl

/-- C7 counterexample: after initialize, a successful login and then a
second login that returns false (an exception mid-flow), the session's
`isLoggedIn` flag is still true although the most recent `login()` call
returned false. -/
theorem flag_true_after_failed_relogin_counterexample :
    (runTrace demoTrace).st.isLoggedIn = true ∧
    (runTrace demoTrace).lastLogin = some false := by
  exact ⟨rfl, rfl⟩

/-- C7 amended: in every reachable state, the `isLoggedIn` flag is true
only if some `login()` call returned true since the last `close()` (the
flag is set only by a successful login and cleared only by `close()`);
and `bookCourt` proceeds to slot selection only with the flag true. -/
theorem auth_flag_requires_successful_login :
    (∀ acts : List Act, (runTrace acts).st.isLoggedIn = true →
      (runTrace acts).succSinceClose = true) ∧
    (∀ (st : AState) (targetDate : Option LocalDateTime) (now : LocalDateTime)
        (targetTime : Option String) (duration : String) (env : BookEnv),
      (bookCourtM st targetDate now targetTime duration env).slotPhase = true →
      (bookCourtM st targetDate now targetTime duration env).finalState.isLoggedIn
        = true) := by
  constructor
  · intro acts h
    exact (runTrace_good acts).2 h
  · intro st targetDate now targetTime duration env hphase
    unfold bookCourtM at hphase ⊢
    by_cases hL : st.isLoggedIn = true
    · rw [if_pos hL] at hphase ⊢
      rw [bookCourtTry_finalState]
      exact hL
    · rw [if_neg hL] at hphase ⊢
      cases hlog : login st env.loginEnv with
      | error e =>
        rw [hlog] at hphase
        simp at hphase
      | ok p =>
        obtain ⟨b, st'⟩ := p
        cases b with
        | false =>
          rw [hlog] at hphase
          simp at hphase
        | true =>
          rw [hlog] at hphase
          dsimp only at hphase ⊢
          rw [bookCourtTry_finalState]
          obtain ⟨hpage, hcases⟩ := login_ok_cases hlog
          rcases hcases with ⟨hb, _⟩ | ⟨_, hst⟩
          · cases hb
          · rw [hst]

/-- Witness for C7 amended: after a successful login the flag implies a
successful login since the last close. -/
theorem auth_flag_requires_successful_login_witness :
    (runTrace [Act.initBrowser, Act.doLogin demoLoginOk]).succSinceClose = true :=
  (auth_flag_requires_successful_login).1 [Act.initBrowser, Act.doLogin demoLoginOk] rfl

/-- C8: on a session without a page handle, `login()` fails with the
uninitialized error; on an initialized session it always returns a
boolean (every exception inside the flow is caught and mapped to false). -/
theorem login_total_on_initialized_session (st : AState) (env : LoginEnv) :
    (st.page = false →
      login st env = .error "Browser not initialized. Call initialize() first.") ∧
    (st.page = true → ∃ b st', login st env = .ok (b, st')) := by
  constructor
  · intro hp
    unfold login
    rw [if_pos hp]
  · intro hp
    cases hlog : login st env with
    | error e =>
      obtain ⟨hpf, _⟩ := login_error_cases hlog
      rw [hp] at hpf
      cases hpf
    | ok p =>
      obtain ⟨b, st'⟩ := p
      exact ⟨b, st', rfl⟩

/-- Witness for C8: the initialized demo session yields a boolean, and
the empty session yields the uninitialized error. -/
theorem login_total_on_initialized_session_witness :
    login AState.empty demoLoginOk =
      .error "Browser not initialized. Call initialize() first." ∧
    ∃ b st', login demoReady demoLoginOk = .ok (b, st') :=
  ⟨(login_total_on_initialized_session AState.empty demoLoginOk).1 rfl,
    (login_total_on_initialized_session demoReady demoLoginOk).2 rfl⟩

/-- C9: `close()` is idempotent on every reachable session state: one
call already leaves the uninitialized state (all handles null,
`isLoggedIn` false), and a second call leaves it unchanged; being a total
function, it raises no error. -/
theorem close_idempotent_resets_state (acts : List Act) :
    closeFn ((runTrace acts).st) = AState.empty ∧
    closeFn (closeFn ((runTrace acts).st)) = closeFn ((runTrace acts).st) := by
  have hinv := (runTrace_good acts).1
  have h1 : closeFn ((runTrace acts).st) = AState.empty := by
    unfold closeFn
    split
    · rfl
    · rename_i hb
      cases hbrowser : (runTrace acts).st.browser with
      | false => exact hinv hbrowser
      | true => exact absurd hbrowser hb
  refine ⟨h1, ?_⟩
  rw [h1]
  rfl

/-- C10: with credentials present, the module-level `bookCourt` invokes
`automation.close()` exactly once on every exit path (initialize
succeeding or raising, the session booking returning or raising), so the
final automation state has no live browser. -/
theorem module_bookCourt_always_closes
    (menv : ModuleEnv) (targetDate : Option LocalDateTime) (now : LocalDateTime)
    (targetTime : Option String) (duration : Option String)
    (he : jsTruthy menv.email = true) (hpw : jsTruthy menv.password = true) :
    (bookCourtModule menv targetDate now targetTime duration).closeCalls = 1 ∧
    Option.map AState.browser
        (bookCourtModule menv targetDate now targetTime duration).finalState =
      some false := by
  unfold bookCourtModule
  rw [if_neg ?hc]
  case hc =>
    rw [he, hpw]
    decide
  cases menv.initThrows with
  | some e => exact ⟨rfl, rfl⟩
  | none =>
    dsimp only
    refine ⟨rfl, ?_⟩
    simp only [Option.map_some', closeFn_browser]

/-- Witness for C10 at a concrete environment with credentials. -/
theorem module_bookCourt_always_closes_witness :
    (bookCourtModule demoModuleEnv (some demoDate) demoNow none
        (some "2 hours")).closeCalls = 1 ∧
    Option.map AState.browser
        (bookCourtModule demoModuleEnv (some demoDate) demoNow none
          (some "2 hours")).finalState = some false :=
  module_bookCourt_always_closes demoModuleEnv (some demoDate) demoNow none
    (some "2 hours") rfl rfl

end TennisBot

